import Mathlib

/-!
Shallow embedding of the `FrameBle` session class from `src/FrameBle.ts`
of the frame-ble-webbluetooth library, and proofs of the framing,
escaping/chunking, response-routing, retry, disconnect and waiter
properties stated in the specification.

Modelling conventions: byte buffers (`Uint8Array`, `DataView`) are
`List Nat`; JS strings are `String` or `List Char`; JS numbers used as
sizes are `Nat`, with `Int` where the source arithmetic can go negative
before a guard; each awaited external call's result is an explicit
environment argument; a thrown `Error` is `Option`/`Except` failure.
-/

deriving instance DecidableEq for Except

namespace FrameBle

/-- A JavaScript `Error` value: its `name` and `message` fields, which are
what the source inspects (`error.name === 'NetworkError'`,
`error.message.includes(...)`). -/
structure JsError where
  name : String
  message : String
deriving DecidableEq

/-- The `RangeError` thrown by `DataView.getUint8(0)` on a zero-length
view. -/
def rangeError : JsError :=
  { name := "RangeError", message := "Offset is outside the bounds of the DataView" }

/-- The single-quote character, written via its code point. -/
def squote : Char := Char.ofNat 39

/-- The double-quote character, written via its code point. -/
def dquote : Char := Char.ofNat 34

/-- `getMaxPayload` (FrameBle.ts lines 230-233): for Lua strings the full
negotiated `maxPayload`; for raw data one byte less (the `0x01` prefix
consumes one byte).  `Int` because the subtraction can go below zero
before the callers' guards run. -/
def getMaxPayload (maxPayload : Nat) (isLua : Bool) : Int :=
  if isLua then (maxPayload : Int) else (maxPayload : Int) - 1

/-- One iteration per element of the `while (sentBytes < totalPayloadSize)`
loop of `sendMessage` (lines 507-517): each subsequent packet handed to
`sendData` is `msgCode` followed by the next payload slice of at most
`cap` bytes.  `fuel` bounds the iteration count; `fuel ≥ rest.length` is
always sufficient because each iteration consumes at least one payload
byte (`cap ≥ 1` is guaranteed by the caller's capacity guard). -/
def subsequentChunksF (msgCode cap : Nat) : Nat → List Nat → List (List Nat)
  | _, [] => []
  | 0, _ :: _ => []
  | fuel + 1, x :: xs =>
    (msgCode :: (x :: xs).take cap) :: subsequentChunksF msgCode cap fuel ((x :: xs).drop cap)

/-- `sendMessage` (lines 461-518), modelled as the ordered list of byte
sequences handed to `sendData` (which prepends the `0x01` wire tag to
each).  `none` models a thrown `Error` (bad code, oversized payload, or
capacities ≤ 0).  `msgCode < 0` cannot occur for a `Nat`; the
`msgCode > 255` half of the source guard is kept. -/
def sendMessage (maxPayload msgCode : Nat) (payload : List Nat) : Option (List (List Nat)) :=
  if 255 < msgCode then none
  else if 65535 < payload.length then none
  else
    let maxDataPayloadForSend : Int := getMaxPayload maxPayload false
    let maxFirstChunkDataSize : Int := maxDataPayloadForSend - 1 - 2
    let maxSubsequentChunkDataSize : Int := maxDataPayloadForSend - 1
    if maxFirstChunkDataSize ≤ 0 ∨ maxSubsequentChunkDataSize ≤ 0 then none
    else
      let totalPayloadSize := payload.length
      let firstChunkActualDataSize := min maxFirstChunkDataSize.toNat totalPayloadSize
      let firstPacket :=
        msgCode :: (totalPayloadSize >>> 8) :: (totalPayloadSize &&& 0xFF)
          :: payload.take firstChunkActualDataSize
      some (firstPacket ::
        subsequentChunksF msgCode maxSubsequentChunkDataSize.toNat
          payload.length (payload.drop firstChunkActualDataSize))

/-- `String.prototype.replace(/c/g, r)` for a single-character pattern:
every occurrence of `c` becomes the list `r`. -/
def replaceChar (c : Char) (r : List Char) (s : List Char) : List Char :=
  s.flatMap fun x => if x = c then r else [x]

/-- The `content.replace(/\r/g, "")` step (line 385). -/
def stripCR (s : List Char) : List Char :=
  replaceChar '\r' [] s

/-- The escaping pipeline of `uploadFileFromString` (lines 385-390): strip
carriage returns, then escape backslash, newline, tab, single quote and
double quote, in source order. -/
def escapedContent (content : List Char) : List Char :=
  replaceChar dquote ['\\', dquote]
    (replaceChar squote ['\\', squote]
      (replaceChar '\t' ['\\', 't']
        (replaceChar '\n' ['\\', 'n']
          (replaceChar '\\' ['\\', '\\']
            (stripCR content)))))

/-- Per-character form of the escaping pipeline (proof helper). -/
def escChar (c : Char) : List Char :=
  if c = '\r' then []
  else if c = '\\' then ['\\', '\\']
  else if c = '\n' then ['\\', 'n']
  else if c = '\t' then ['\\', 't']
  else if c = squote then ['\\', squote]
  else if c = dquote then ['\\', dquote]
  else [c]

/-- Decoding of one escaped character (proof-side helper for `unescape`). -/
def unescapeChar (c : Char) : Char :=
  if c = 'n' then '\n' else if c = 't' then '\t' else c

/-- Modelled from the spec: the conceptual unescaping applied by the remote
interpreter to each received string literal ("escaping then chunking then
(conceptually) unescaping-and-concatenating all chunks yields the
original C").  A backslash followed by `n`/`t` decodes to newline/tab; a
backslash followed by any other character decodes to that character. -/
def unescape : List Char → List Char
  | [] => []
  | [c] => [c]
  | c :: d :: rest =>
    if c = '\\' then unescapeChar d :: unescape rest
    else c :: unescape (d :: rest)

/-- The `trailingSlashes` count of lines 411-414: the length of the maximal
run of backslash characters at the end of `chunk`. -/
def trailingBackslashes (chunk : List Char) : Nat :=
  (chunk.reverse.takeWhile fun c => c == '\\').length

/-- The `while (chunk.endsWith("\\"))` adjustment of lines 410-430, as a
function from the tried `currentChunkSize` to the accepted one; `0`
models the `throw` of line 425 (isolated escape character at a chunk
boundary).  The chunk under trial is `remaining.take size`, where
`remaining` is the escaped content from the current write position.  The
`0` input case cannot arise from the callers (the loop is only entered
with at least one character remaining and capacity ≥ 1). -/
def adjustChunkSize (remaining : List Char) : Nat → Nat
  | 0 => 0
  | size + 1 =>
    let chunk := remaining.take (size + 1)
    if chunk.getLast? = some '\\' then
      if trailingBackslashes chunk % 2 ≠ 0 then
        if 1 < size + 1 then adjustChunkSize remaining size
        else 0
      else size + 1
    else size + 1

/-- The awaited remote commands issued by `uploadFileFromString`:
`openCmd path` is `sendLua("f=frame.file.open('<path>','w');print(1)")`
(line 392), `writeCmd chunk` is `sendLua("f:write(\"<chunk>\");print(1)")`
(line 433), `closeCmd` is `sendLua("f:close();print(nil)")` (lines
424/435/441).  Every one of them is awaited before the next command is
issued, so trace order is issue order. -/
inductive UploadCmd where
  | openCmd (path : String)
  | writeCmd (chunk : List Char)
  | closeCmd
deriving DecidableEq

/-- The distinct `throw` sites of `uploadFileFromString`. -/
inductive UploadErr where
  | openFailed
  | payloadTooSmall
  | chunkingFailed
  | writeFailed
deriving DecidableEq

/-- The chunking/write loop of `uploadFileFromString` (lines 404-439),
recorded as the ordered trace of awaited remote commands it issues
together with its result.  `writeResp k` is the device's print response
to the `k`-th write command of the whole upload.  `fuel ≥ remaining.length`
always suffices, since every iteration consumes at least one character;
the fuel-exhaustion arm is unreachable under that bound. -/
def uploadLoopF (m : Nat) (writeResp : Nat → String) :
    Nat → Nat → List Char → List UploadCmd × Except UploadErr Unit
  | _, _, [] => ([], .ok ())
  | 0, _, _ :: _ => ([], .error .chunkingFailed)
  | fuel + 1, widx, x :: xs =>
    let r := x :: xs
    let currentChunkSize := min m r.length
    let s := adjustChunkSize r currentChunkSize
    if s = 0 then
      ([.closeCmd], .error .chunkingFailed)
    else
      let chunk := r.take s
      if writeResp widx ≠ "1" then
        ([.writeCmd chunk, .closeCmd], .error .writeFailed)
      else
        let rec0 := uploadLoopF m writeResp fuel (widx + 1) (r.drop s)
        (.writeCmd chunk :: rec0.1, rec0.2)

/-- `uploadFileFromString` (lines 384-444), modelled as the ordered trace
of awaited remote commands together with the overall result.  `openResp`
and `writeResp k` are the device's print responses to the open command
and the `k`-th write command; the close response is not checked by the
source (line 442). -/
def uploadFileFromString (maxPayload : Nat) (openResp : String)
    (writeResp : Nat → String) (content : List Char) (frameFilePath : String) :
    List UploadCmd × Except UploadErr Unit :=
  let escaped := escapedContent content
  if openResp ≠ "1" then ([.openCmd frameFilePath], .error .openFailed)
  else
    let luaCommandOverhead : Nat := "f:write(\"\");print(1)".length
    let maxChunkSize : Int := getMaxPayload maxPayload true - luaCommandOverhead
    if maxChunkSize ≤ 0 then ([.openCmd frameFilePath], .error .payloadTooSmall)
    else
      let run := uploadLoopF maxChunkSize.toNat writeResp escaped.length 0 escaped
      match run.2 with
      | .ok _ => (.openCmd frameFilePath :: (run.1 ++ [.closeCmd]), .ok ())
      | .error e => (.openCmd frameFilePath :: run.1, .error e)

/-- Projection selecting the write commands of an upload trace. -/
def getWriteChunk : UploadCmd → Option (List Char)
  | .writeCmd c => some c
  | _ => none

/-- Possible behaviours of a registered observer callback when invoked: it
can return normally (`void` or a promise that resolves), return a promise
that later rejects, or throw synchronously. -/
inductive CbBehavior where
  | returnsVoid
  | promiseResolves
  | promiseRejects (e : JsError)
  | throwsSync (e : JsError)
deriving DecidableEq

/-- The waiter-related session fields read and written by
`notificationHandler`. -/
structure NotifState where
  awaitingPrintResponse : Bool
  printResolve : Bool
  awaitingDataResponse : Bool
  dataResolve : Bool
deriving DecidableEq

/-- The registered observer callbacks (`onDataResponse`,
`onPrintResponse`), described by how they behave when invoked. -/
structure NotifEnv where
  onDataResponse : Option CbBehavior
  onPrintResponse : Option CbBehavior
deriving DecidableEq

/-- Which logical channel an inbound buffer is handed to, and with what
bytes.  The print channel receives the whole raw buffer (UTF-8 decoded,
byte 0 included); the data channel receives the bytes after the `0x01`
tag. -/
inductive Delivery where
  | toData (payload : List Nat)
  | toPrint (raw : List Nat)
deriving DecidableEq

/-- Everything observable about one `notificationHandler` invocation:
the updated waiter state, which waiter (if any) was resolved and with
what bytes, which observer (if any) was invoked and with what bytes, what
escaped the handler, and what was logged via `console.error`. -/
structure NotifOutcome where
  state : NotifState
  resolvedData : Option (List Nat)
  resolvedPrint : Option (List Nat)
  observerDelivery : Option Delivery
  thrown : Option JsError
  logged : Option JsError
deriving DecidableEq

/-- Invoking an observer callback exactly as the handler does
(`const result = cb(x); if (result instanceof Promise)
result.catch(console.error)`, lines 81-86 and 93-99): a rejected promise
is caught and logged; a synchronous throw is not guarded by any
`try`/`catch` and escapes.  Returns `(thrown, logged)`. -/
def invokeCb : CbBehavior → Option JsError × Option JsError
  | .returnsVoid => (none, none)
  | .promiseResolves => (none, none)
  | .promiseRejects e => (none, some e)
  | .throwsSync e => (some e, none)

/-- `notificationHandler` (lines 69-101).  `value = none` models a
null/undefined `characteristic.value` (`if (!value) return`); `some []`
models a zero-length `DataView`, which passes that check (a `DataView`
object is truthy regardless of length) and on which `value.getUint8(0)`
then throws a `RangeError` that escapes the handler before anything is
delivered. -/
def notificationHandler (st : NotifState) (env : NotifEnv)
    (value : Option (List Nat)) : NotifOutcome :=
  match value with
  | none => ⟨st, none, none, none, none, none⟩
  | some [] => ⟨st, none, none, none, some rangeError, none⟩
  | some (b :: rest) =>
    if b = 1 then
      let resolves := st.awaitingDataResponse && st.dataResolve
      let st2 := if resolves then { st with awaitingDataResponse := false } else st
      match env.onDataResponse with
      | some cb =>
        let tl := invokeCb cb
        ⟨st2, if resolves then some rest else none, none, some (.toData rest), tl.1, tl.2⟩
      | none =>
        ⟨st2, if resolves then some rest else none, none, none, none, none⟩
    else
      let raw := b :: rest
      let resolves := st.awaitingPrintResponse && st.printResolve
      let st2 := if resolves then { st with awaitingPrintResponse := false } else st
      match env.onPrintResponse with
      | some cb =>
        let tl := invokeCb cb
        ⟨st2, none, if resolves then some raw else none, some (.toPrint raw), tl.1, tl.2⟩
      | none =>
        ⟨st2, none, if resolves then some raw else none, none, none, none⟩

/-- The print-channel waiter fields (`awaitingPrintResponse`,
`printResolve`) of the session. -/
structure PrintWaiterState where
  awaitingPrintResponse : Bool
  printResolve : Bool
deriving DecidableEq

/-- Events that can settle a pending print waiter: a print-classified
notification (the handler's string branch, lines 87-92), or the waiter's
own `setTimeout` callback firing (lines 281-287).  The JS event loop runs
each of these to completion atomically. -/
inductive PrintEvent where
  | message (raw : List Nat)
  | timeoutFire
deriving DecidableEq

/-- User-visible completions of the print-response promise. -/
inductive PrintOutcome where
  | resolved (raw : List Nat)
  | rejectedTimeout
deriving DecidableEq

/-- One event against the print waiter.  `message` is
`if (awaitingPrintResponse && printResolve) { awaiting = false;
printResolve(decoded) }` (the resolver field itself is not cleared on
resolution); `timeoutFire` is `if (awaitingPrintResponse)
{ awaiting = false; printResolve = undefined; reject(Timeout) }`. -/
def printStep (st : PrintWaiterState) : PrintEvent → PrintWaiterState × Option PrintOutcome
  | .message raw =>
    if st.awaitingPrintResponse && st.printResolve then
      ({ st with awaitingPrintResponse := false }, some (.resolved raw))
    else (st, none)
  | .timeoutFire =>
    if st.awaitingPrintResponse then
      ({ awaitingPrintResponse := false, printResolve := false }, some .rejectedTimeout)
    else (st, none)

/-- Processing a whole event sequence, collecting the user-visible
completions in order. -/
def printRun (st : PrintWaiterState) : List PrintEvent → PrintWaiterState × List PrintOutcome
  | [] => (st, [])
  | e :: es =>
    let step := printStep st e
    let rest := printRun step.1 es
    (rest.1, step.2.toList ++ rest.2)

/-- The waiter state set up by `sendLua(..., {awaitPrint: true})` (lines
278-280): awaiting, with a stored resolver. -/
def sendLuaAwaitPrintIssue : PrintWaiterState :=
  { awaitingPrintResponse := true, printResolve := true }

/-- The connection-related fields of the session, with handles modelled as
presence flags, plus the waiter fields (so that what `handleDisconnect`
does and does not touch is visible). -/
structure FrameState where
  device : Bool
  gattConnected : Bool
  server : Bool
  txCharacteristic : Bool
  rxCharacteristic : Bool
  hasOnDisconnectHandler : Bool
  awaitingPrintResponse : Bool
  printResolve : Bool
  awaitingDataResponse : Bool
  dataResolve : Bool
deriving DecidableEq

/-- `handleDisconnect` (lines 59-67): clear the four handles, then invoke
the registered disconnect handler if one is set.  Returns the new state
and whether the handler was invoked.  No other field is touched and no
other action is performed. -/
def handleDisconnect (s : FrameState) : FrameState × Bool :=
  ({ s with device := false, server := false,
            txCharacteristic := false, rxCharacteristic := false },
   s.hasOnDisconnectHandler)

/-- `isConnected` (lines 221-223); the `gatt !== undefined` conjunct is
absorbed into the `gattConnected` flag. -/
def isConnected (s : FrameState) : Bool :=
  s.device && s.gattConnected

/-- `disconnect` (lines 207-216): when a live GATT link exists, request a
GATT disconnect (the `gattserverdisconnected` event later runs
`handleDisconnect`; that asynchronous step is not part of this call);
otherwise run `handleDisconnect` directly.  Returns (new state,
disconnect handler invoked now, GATT disconnect requested). -/
def disconnect (s : FrameState) : FrameState × Bool × Bool :=
  if s.device && s.gattConnected then
    (s, false, true)
  else
    let hd := handleDisconnect s
    (hd.1, hd.2, false)

/-- Externally determined results of the awaited sub-steps of one
connection-establishment run: the body of the `try` block of `connect`
(lines 150-174). -/
structure AttemptSteps where
  gattConnect : Except JsError Unit
  getPrimaryService : Except JsError Unit
  getTxCharacteristic : Except JsError Unit
  getRxCharacteristic : Except JsError Unit
  startNotifications : Except JsError Unit
  sendBreakSignal : Except JsError Unit
  mtuPrintResponse : Except JsError String

/-- JS `parseInt` restricted to what the MTU handshake needs: the value of
the maximal leading digit run, `none` (`NaN`) when the string does not
start with a digit. -/
def parseIntNat (s : String) : Option Nat :=
  let digits := s.toList.takeWhile (fun c => c.isDigit)
  if digits.isEmpty then none
  else some (digits.foldl (fun acc c => acc * 10 + (c.toNat - 48)) 0)

/-- The error of lines 169-170 for an absent, non-numeric or non-positive
MTU response. -/
def invalidMtuError (mtuString : String) : JsError :=
  { name := "Error", message := "Invalid MTU size received: " ++ mtuString }

/-- One establishment run (lines 150-174): GATT connect, service and
characteristic resolution, notification subscription, break signal, MTU
query and parse.  Returns the negotiated `maxPayload`.  `parseIntNat`
never returns a negative number, so the `mtu <= 0` half of the source
guard reduces to `mtu = 0`. -/
def runConnectAttempt (a : AttemptSteps) : Except JsError Nat := do
  a.gattConnect
  a.getPrimaryService
  a.getTxCharacteristic
  a.getRxCharacteristic
  a.startNotifications
  a.sendBreakSignal
  match a.mtuPrintResponse with
  | .error e => .error e
  | .ok mtuString =>
    match parseIntNat mtuString with
    | none => .error (invalidMtuError mtuString)
    | some mtu => if mtu = 0 then .error (invalidMtuError mtuString) else .ok mtu

/-- Observable actions of `connect`: establishment attempt number `k`, or
a retry delay of `ms` milliseconds.  The `retryDelay` constructor exists
so that the spec's retry-policy claims are statable against the trace;
the canonical `connect` never produces it. -/
inductive ConnectAction where
  | attemptConnection (k : Nat)
  | retryDelay (ms : Nat)
deriving DecidableEq

/-- The environment a `connect()` call runs against: platform BLE
availability, the device-selection result, and per-attempt establishment
outcomes (`attempts k` is what the `k`-th establishment run would yield;
the canonical `connect` only ever consumes `attempts 0`). -/
structure ConnectEnv where
  bluetoothAvailable : Bool
  requestDevice : Except JsError String
  attempts : Nat → AttemptSteps

/-- The error of line 117. -/
def webBluetoothUnavailable : JsError :=
  { name := "Error", message := "Web Bluetooth API not available." }

/-- `connect` (lines 107-202): availability check, device selection, then
a single `try` block running the establishment steps once; on error the
`catch` block (lines 177-200) cleans up and rethrows.  There is no loop
around the `try` block, so the action trace contains at most
`attemptConnection 0` and never a `retryDelay`. -/
def connect (env : ConnectEnv) : Except JsError String × List ConnectAction :=
  if !env.bluetoothAvailable then (.error webBluetoothUnavailable, [])
  else
    match env.requestDevice with
    | .error e => (.error e, [])
    | .ok deviceId =>
      match runConnectAttempt (env.attempts 0) with
      | .ok _mtu => (.ok deviceId, [.attemptConnection 0])
      | .error e => (.error e, [.attemptConnection 0])

/-- Contiguous-occurrence test on character lists, used to model
`error.message.includes(...)`. -/
def charsContain (needle : List Char) : List Char → Bool
  | [] => needle.isEmpty
  | c :: t => needle.isPrefixOf (c :: t) || charsContain needle t

/-- `s.includes(sub)` on JS strings. -/
def stringIncludes (s sub : String) : Bool :=
  charsContain sub.toList s.toList

/-- The retryable-error classifier of the connection retry policy.  The
canonical `connect` of `src/FrameBle.ts` contains no such classifier;
this is translated from the prior-revision `FrameBle` class embedded in
`example/decompression.js` (its lines 328-334), which is what the spec's
retry policy describes: a `NetworkError` whose message includes one of
four link-layer messages. -/
def isRetryableError (e : JsError) : Bool :=
  e.name == "NetworkError" &&
    (stringIncludes e.message "Connection attempt failed." ||
     stringIncludes e.message "GATT operation failed for unknown reason." ||
     stringIncludes e.message "GATT Server is disconnected." ||
     stringIncludes e.message "Bluetooth device is already connected.")

/-- A link-layer error of the retryable kind. -/
def retryableLinkError : JsError :=
  { name := "NetworkError", message := "Connection attempt failed." }

/-- Establishment outcomes that fail at `gatt.connect()` with a retryable
link error. -/
def failingAttempt : AttemptSteps :=
  { gattConnect := .error retryableLinkError, getPrimaryService := .ok (),
    getTxCharacteristic := .ok (), getRxCharacteristic := .ok (),
    startNotifications := .ok (), sendBreakSignal := .ok (),
    mtuPrintResponse := .ok "247" }

/-- Establishment outcomes that succeed with a negotiated size of 247. -/
def succeedingAttempt : AttemptSteps :=
  { gattConnect := .ok (), getPrimaryService := .ok (),
    getTxCharacteristic := .ok (), getRxCharacteristic := .ok (),
    startNotifications := .ok (), sendBreakSignal := .ok (),
    mtuPrintResponse := .ok "247" }

/-- The scenario of the retry claim: three attempts allowed, the first two
raise a retryable link error, the third would succeed. -/
def retryScenarioEnv : ConnectEnv :=
  { bluetoothAvailable := true, requestDevice := .ok "frame-device-id",
    attempts := fun k => if k < 2 then failingAttempt else succeedingAttempt }

/-- A session state with both waiters pending and every handle live. -/
def pendingWaitersState : FrameState :=
  { device := true, gattConnected := true, server := true,
    txCharacteristic := true, rxCharacteristic := true,
    hasOnDisconnectHandler := true,
    awaitingPrintResponse := true, printResolve := true,
    awaitingDataResponse := true, dataResolve := true }

/-- A failure value for an observer callback. -/
def observerError : JsError :=
  { name := "Error", message := "observer failed" }

/-- A session state whose GATT link is not active. -/
def notConnectedState : FrameState :=
  { pendingWaitersState with gattConnected := false }

/-! ## Helper lemmas -/

theorem subsequentChunksF_reassemble (msgCode cap : Nat) (hcap : 1 ≤ cap) :
    ∀ (fuel : Nat) (l : List Nat), l.length ≤ fuel →
      ((subsequentChunksF msgCode cap fuel l).map (fun c => c.drop 1)).flatten = l := by
  intro fuel
  induction fuel with
  | zero =>
    intro l hl
    have : l = [] := List.length_eq_zero.mp (Nat.le_zero.mp hl)
    subst this
    simp [subsequentChunksF]
  | succ f ih =>
    intro l hl
    match l with
    | [] => simp [subsequentChunksF]
    | x :: xs =>
      have hdrop : ((x :: xs).drop cap).length ≤ f := by
        simp only [List.length_drop, List.length_cons]
        simp only [List.length_cons] at hl
        omega
      simp only [subsequentChunksF, List.map_cons, List.flatten_cons, List.drop_succ_cons,
        List.drop_zero, ih _ hdrop]
      exact List.take_append_drop cap (x :: xs)

theorem subsequentChunksF_shape (msgCode cap : Nat) :
    ∀ (fuel : Nat) (l : List Nat), ∀ c ∈ subsequentChunksF msgCode cap fuel l,
      ∃ slice, c = msgCode :: slice := by
  intro fuel
  induction fuel with
  | zero =>
    intro l c hc
    match l with
    | [] => simp [subsequentChunksF] at hc
    | x :: xs => simp [subsequentChunksF] at hc
  | succ f ih =>
    intro l c hc
    match l with
    | [] => simp [subsequentChunksF] at hc
    | x :: xs =>
      simp only [subsequentChunksF, List.mem_cons] at hc
      cases hc with
      | inl h => exact ⟨_, h⟩
      | inr h => exact ih _ c h

theorem escapedContent_append (a b : List Char) :
    escapedContent (a ++ b) = escapedContent a ++ escapedContent b := by
  simp [escapedContent, stripCR, replaceChar]

theorem escapedContent_cons (c : Char) (s : List Char) :
    escapedContent (c :: s) = escChar c ++ escapedContent s := by
  have h : escapedContent (c :: s) = escapedContent [c] ++ escapedContent s := by
    simpa using escapedContent_append [c] s
  rw [h]
  congr 1
  by_cases h1 : c = '\r'
  · subst h1; decide
  · by_cases h2 : c = '\\'
    · subst h2; decide
    · by_cases h3 : c = '\n'
      · subst h3; decide
      · by_cases h4 : c = '\t'
        · subst h4; decide
        · by_cases h5 : c = squote
          · subst h5; decide
          · by_cases h6 : c = dquote
            · subst h6; decide
            · simp [escapedContent, stripCR, replaceChar, escChar, h1, h2, h3, h4, h5, h6]

theorem stripCR_cons (c : Char) (s : List Char) :
    stripCR (c :: s) = (if c = '\r' then [] else [c]) ++ stripCR s := by
  simp [stripCR, replaceChar]

theorem unescape_cons_backslash (d : Char) (l : List Char) :
    unescape ('\\' :: d :: l) = unescapeChar d :: unescape l := by
  simp [unescape]

theorem unescape_cons_other (c : Char) (h : c ≠ '\\') (l : List Char) :
    unescape (c :: l) = c :: unescape l := by
  cases l with
  | nil => simp [unescape]
  | cons d rest => simp [unescape, h]

theorem unescape_escapedContent (s : List Char) :
    unescape (escapedContent s) = stripCR s := by
  induction s with
  | nil => decide
  | cons c s ih =>
    rw [escapedContent_cons, stripCR_cons]
    by_cases h1 : c = '\r'
    · subst h1
      rw [show escChar '\r' = [] from rfl, if_pos rfl]
      simpa using ih
    · by_cases h2 : c = '\\'
      · subst h2
        rw [show escChar '\\' = ['\\', '\\'] from rfl, if_neg (by decide)]
        simp only [List.cons_append, List.nil_append]
        rw [unescape_cons_backslash, show unescapeChar '\\' = '\\' from rfl, ih]
      · by_cases h3 : c = '\n'
        · subst h3
          rw [show escChar '\n' = ['\\', 'n'] from rfl, if_neg (by decide)]
          simp only [List.cons_append, List.nil_append]
          rw [unescape_cons_backslash, show unescapeChar 'n' = '\n' from rfl, ih]
        · by_cases h4 : c = '\t'
          · subst h4
            rw [show escChar '\t' = ['\\', 't'] from rfl, if_neg (by decide)]
            simp only [List.cons_append, List.nil_append]
            rw [unescape_cons_backslash, show unescapeChar 't' = '\t' from rfl, ih]
          · by_cases h5 : c = squote
            · subst h5
              rw [show escChar squote = ['\\', squote] from rfl, if_neg (by decide)]
              simp only [List.cons_append, List.nil_append]
              rw [unescape_cons_backslash, show unescapeChar squote = squote from rfl, ih]
            · by_cases h6 : c = dquote
              · subst h6
                rw [show escChar dquote = ['\\', dquote] from rfl, if_neg (by decide)]
                simp only [List.cons_append, List.nil_append]
                rw [unescape_cons_backslash, show unescapeChar dquote = dquote from rfl, ih]
              · rw [show escChar c = [c] by
                  simp [escChar, h1, h2, h3, h4, h5, h6], if_neg h1]
                simp only [List.cons_append, List.nil_append]
                rw [unescape_cons_other c h2, ih]

theorem trailingBackslashes_eq_zero (l : List Char) (h : l.getLast? ≠ some '\\') :
    trailingBackslashes l = 0 := by
  unfold trailingBackslashes
  match hrev : l.reverse with
  | [] => simp
  | c :: t =>
    have hc : c ≠ '\\' := by
      intro hc
      apply h
      rw [← List.head?_reverse, hrev, hc]
      rfl
    have hb : (c == '\\') = false := by simp [hc]
    simp [List.takeWhile_cons, hb]

theorem adjustChunkSize_pos_even (remaining : List Char) :
    ∀ size, adjustChunkSize remaining size ≠ 0 →
      trailingBackslashes (remaining.take (adjustChunkSize remaining size)) % 2 = 0 := by
  intro size
  induction size with
  | zero => intro h; simp [adjustChunkSize] at h
  | succ n ih =>
    intro h
    simp only [adjustChunkSize] at h ⊢
    by_cases hlast : (remaining.take (n + 1)).getLast? = some '\\'
    · rw [if_pos hlast] at h ⊢
      by_cases hodd : trailingBackslashes (remaining.take (n + 1)) % 2 ≠ 0
      · rw [if_pos hodd] at h ⊢
        by_cases hgt : 1 < n + 1
        · rw [if_pos hgt] at h ⊢
          exact ih h
        · rw [if_neg hgt] at h
          exact absurd rfl h
      · rw [if_neg hodd] at h ⊢
        omega
    · rw [if_neg hlast] at h ⊢
      rw [trailingBackslashes_eq_zero _ hlast]

theorem uploadLoopF_ok_join (m : Nat) (writeResp : Nat → String) :
    ∀ (fuel widx : Nat) (r : List Char), r.length ≤ fuel →
      (uploadLoopF m writeResp fuel widx r).2 = .ok () →
      (((uploadLoopF m writeResp fuel widx r).1.filterMap getWriteChunk)).flatten = r := by
  intro fuel
  induction fuel with
  | zero =>
    intro widx r hr _
    have : r = [] := List.length_eq_zero.mp (Nat.le_zero.mp hr)
    subst this
    simp [uploadLoopF]
  | succ f ih =>
    intro widx r hr hok
    cases r with
    | nil => simp [uploadLoopF]
    | cons x xs =>
      simp only [uploadLoopF] at hok ⊢
      by_cases hs : adjustChunkSize (x :: xs) (min m (x :: xs).length) = 0
      · rw [if_pos hs] at hok
        simp at hok
      · rw [if_neg hs] at hok ⊢
        by_cases hw : writeResp widx ≠ "1"
        · rw [if_pos hw] at hok
          simp at hok
        · rw [if_neg hw] at hok ⊢
          simp only [List.filterMap_cons, getWriteChunk, List.flatten_cons]
          have hlen : ((x :: xs).drop
              (adjustChunkSize (x :: xs) (min m (x :: xs).length))).length ≤ f := by
            rw [List.length_drop]
            omega
          rw [ih _ _ hlen hok]
          exact List.take_append_drop _ _

theorem uploadLoopF_writes_even (m : Nat) (writeResp : Nat → String) :
    ∀ (fuel widx : Nat) (r chunk : List Char),
      UploadCmd.writeCmd chunk ∈ (uploadLoopF m writeResp fuel widx r).1 →
      trailingBackslashes chunk % 2 = 0 := by
  intro fuel
  induction fuel with
  | zero =>
    intro widx r chunk hmem
    cases r <;> simp [uploadLoopF] at hmem
  | succ f ih =>
    intro widx r chunk hmem
    cases r with
    | nil => simp [uploadLoopF] at hmem
    | cons x xs =>
      simp only [uploadLoopF] at hmem
      by_cases hs : adjustChunkSize (x :: xs) (min m (x :: xs).length) = 0
      · rw [if_pos hs] at hmem
        simp at hmem
      · rw [if_neg hs] at hmem
        by_cases hw : writeResp widx ≠ "1"
        · rw [if_pos hw] at hmem
          simp at hmem
          subst hmem
          exact adjustChunkSize_pos_even (x :: xs) _ hs
        · rw [if_neg hw] at hmem
          simp only [List.mem_cons] at hmem
          cases hmem with
          | inl heq =>
            cases heq
            exact adjustChunkSize_pos_even (x :: xs) _ hs
          | inr hmem => exact ih _ _ chunk hmem

theorem uploadLoopF_error_closes (m : Nat) (writeResp : Nat → String) :
    ∀ (fuel widx : Nat) (r : List Char), r.length ≤ fuel →
      ∀ e, (uploadLoopF m writeResp fuel widx r).2 = .error e →
        (uploadLoopF m writeResp fuel widx r).1.getLast? = some .closeCmd := by
  intro fuel
  induction fuel with
  | zero =>
    intro widx r hr e herr
    have : r = [] := List.length_eq_zero.mp (Nat.le_zero.mp hr)
    subst this
    simp [uploadLoopF] at herr
  | succ f ih =>
    intro widx r hr e herr
    cases r with
    | nil => simp [uploadLoopF] at herr
    | cons x xs =>
      simp only [uploadLoopF] at herr ⊢
      by_cases hs : adjustChunkSize (x :: xs) (min m (x :: xs).length) = 0
      · rw [if_pos hs]
        rfl
      · rw [if_neg hs] at herr ⊢
        by_cases hw : writeResp widx ≠ "1"
        · rw [if_pos hw]
          rfl
        · rw [if_neg hw] at herr ⊢
          have hlen : ((x :: xs).drop
              (adjustChunkSize (x :: xs) (min m (x :: xs).length))).length ≤ f := by
            rw [List.length_drop]
            omega
          have hrec := ih _ _ hlen e herr
          cases hrl : (uploadLoopF m writeResp f (widx + 1)
              ((x :: xs).drop (adjustChunkSize (x :: xs) (min m (x :: xs).length)))).1 with
          | nil => rw [hrl] at hrec; simp at hrec
          | cons y ys =>
            rw [hrl] at hrec
            simp only [hrl, List.getLast?_cons_cons]
            exact hrec

/-! ## Claim theorems -/

/-- C1: for every payload of at most 65535 bytes and every message code in
0-255 (given a negotiated payload size large enough for the framing
protocol's capacity guard, `maxPayload ≥ 5`), `sendMessage` splits the
payload into wire chunks — the first chunk is the message code, the two
size-header bytes, and a payload slice; every subsequent chunk is the
message code followed by a payload slice — such that concatenating the
payload slices in transmission order yields exactly the payload, and the
two header bytes encode the payload length big-endian
(`256 * high + low = length`). -/
theorem sendMessage_frames_roundtrip (maxPayload msgCode : Nat) (payload : List Nat)
    (hcode : msgCode ≤ 255) (hlen : payload.length ≤ 65535) (hmp : 5 ≤ maxPayload) :
    ∃ first rest,
      sendMessage maxPayload msgCode payload = some (first :: rest) ∧
      first = msgCode :: payload.length / 256 :: payload.length % 256 ::
        payload.take (min (maxPayload - 4) payload.length) ∧
      (∀ c ∈ rest, ∃ slice, c = msgCode :: slice) ∧
      first.drop 3 ++ ((rest.map fun c => c.drop 1).flatten) = payload ∧
      256 * (payload.length / 256) + payload.length % 256 = payload.length := by
  have hfirst : ((getMaxPayload maxPayload false) - 1 - 2).toNat = maxPayload - 4 := by
    simp [getMaxPayload]; omega
  have hsub : ((getMaxPayload maxPayload false) - 1).toNat = maxPayload - 2 := by
    simp [getMaxPayload]; omega
  have hguard : ¬((getMaxPayload maxPayload false) - 1 - 2 ≤ 0 ∨
      (getMaxPayload maxPayload false) - 1 ≤ 0) := by
    simp [getMaxPayload]; omega
  have h8 : payload.length >>> 8 = payload.length / 256 := by
    rw [Nat.shiftRight_eq_div_pow]
  have hand : payload.length &&& 0xFF = payload.length % 256 := by
    have := Nat.and_pow_two_sub_one_eq_mod payload.length 8
    norm_num at this
    exact this
  refine ⟨msgCode :: payload.length / 256 :: payload.length % 256 ::
      payload.take (min (maxPayload - 4) payload.length),
    subsequentChunksF msgCode (maxPayload - 2) payload.length
      (payload.drop (min (maxPayload - 4) payload.length)),
    ?_, rfl, ?_, ?_, Nat.div_add_mod _ 256⟩
  · simp only [sendMessage, if_neg (by omega : ¬255 < msgCode),
      if_neg (by omega : ¬65535 < payload.length), if_neg hguard, hfirst, hsub, h8, hand]
  · exact subsequentChunksF_shape msgCode (maxPayload - 2) payload.length _
  · simp only [List.drop_succ_cons, List.drop_zero]
    rw [subsequentChunksF_reassemble msgCode (maxPayload - 2) (by omega) payload.length
      (payload.drop (min (maxPayload - 4) payload.length))
      (by simp only [List.length_drop]; exact Nat.sub_le _ _)]
    exact List.take_append_drop _ payload

/-- Witness for C1 at `maxPayload = 6`, `msgCode = 7`,
`payload = [1,2,3,4,5]`. -/
theorem sendMessage_frames_roundtrip_witness :
    (7 : Nat) ≤ 255 ∧ ([1, 2, 3, 4, 5] : List Nat).length ≤ 65535 ∧ (5 : Nat) ≤ 6 ∧
    ∃ first rest,
      sendMessage 6 7 [1, 2, 3, 4, 5] = some (first :: rest) ∧
      first = 7 :: ([1, 2, 3, 4, 5] : List Nat).length / 256 ::
        ([1, 2, 3, 4, 5] : List Nat).length % 256 ::
        ([1, 2, 3, 4, 5] : List Nat).take (min (6 - 4) ([1, 2, 3, 4, 5] : List Nat).length) ∧
      (∀ c ∈ rest, ∃ slice, c = 7 :: slice) ∧
      first.drop 3 ++ ((rest.map fun c => c.drop 1).flatten) = [1, 2, 3, 4, 5] ∧
      256 * (([1, 2, 3, 4, 5] : List Nat).length / 256) +
        ([1, 2, 3, 4, 5] : List Nat).length % 256 = ([1, 2, 3, 4, 5] : List Nat).length :=
  ⟨by decide, by decide, by decide,
    sendMessage_frames_roundtrip 6 7 [1, 2, 3, 4, 5] (by decide) (by decide) (by decide)⟩

/-- C2: for every content string, whenever `uploadFileFromString` completes
its escaping and chunking (result `ok`, with the open command
acknowledged), the concatenation of the emitted write-command chunks is
exactly the escaped content — hence conceptually unescaping the
concatenation gives back the content with carriage returns removed — and
every emitted chunk (in particular every one but the last) ends in an
even-length run of the backslash escape character, so no two-character
escape sequence is split across a chunk boundary. -/
theorem uploadFileFromString_escape_chunk (content : List Char) (maxPayload : Nat)
    (writeResp : Nat → String) (frameFilePath : String) (cmds : List UploadCmd)
    (h : uploadFileFromString maxPayload "1" writeResp content frameFilePath =
      (cmds, .ok ())) :
    (cmds.filterMap getWriteChunk).flatten = escapedContent content ∧
    unescape ((cmds.filterMap getWriteChunk).flatten) = stripCR content ∧
    (∀ chunk, UploadCmd.writeCmd chunk ∈ cmds → trailingBackslashes chunk % 2 = 0) := by
  simp only [uploadFileFromString] at h
  rw [if_neg (fun hh => hh rfl)] at h
  by_cases hms : (getMaxPayload maxPayload true -
      ("f:write(\"\");print(1)".length : Nat) : Int) ≤ 0
  · rw [if_pos hms] at h
    simp at h
  · rw [if_neg hms] at h
    cases hrun : (uploadLoopF (getMaxPayload maxPayload true -
        ("f:write(\"\");print(1)".length : Nat) : Int).toNat writeResp
        (escapedContent content).length 0 (escapedContent content)).2 with
    | error e =>
      rw [hrun] at h
      simp at h
    | ok u =>
      rw [hrun] at h
      rw [Prod.mk.injEq] at h
      obtain ⟨hcmds, -⟩ := h
      subst hcmds
      have hjoin := uploadLoopF_ok_join (getMaxPayload maxPayload true -
          ("f:write(\"\");print(1)".length : Nat) : Int).toNat writeResp
          (escapedContent content).length 0 (escapedContent content) le_rfl
          (by rw [hrun])
      refine ⟨?_, ?_, ?_⟩
      · simpa [getWriteChunk] using hjoin
      · rw [show ((UploadCmd.openCmd frameFilePath ::
            ((uploadLoopF (getMaxPayload maxPayload true -
              ("f:write(\"\");print(1)".length : Nat) : Int).toNat writeResp
              (escapedContent content).length 0 (escapedContent content)).1 ++
              [UploadCmd.closeCmd])).filterMap getWriteChunk).flatten =
            escapedContent content by simpa [getWriteChunk] using hjoin]
        exact unescape_escapedContent content
      · intro chunk hmem
        simp only [List.mem_cons, List.mem_append] at hmem
        rcases hmem with heq | hmem | heq
        · exact absurd heq (by simp)
        · exact uploadLoopF_writes_even _ writeResp _ _ _ chunk hmem
        · exact absurd heq (by simp)

/-- Witness for C2 at `maxPayload = 25` (chunk capacity 5) and content
`a\nb\c`, whose escaped form `a\\nb\\\\c` is split into the chunks
`a\\nb` and `\\\\c` (the boundary is moved off the odd backslash run). -/
theorem uploadFileFromString_escape_chunk_witness :
    uploadFileFromString 25 "1" (fun _ => "1") ['a', '\n', 'b', '\\', 'c'] "x.lua" =
      ([.openCmd "x.lua", .writeCmd ['a', '\\', 'n', 'b'],
        .writeCmd ['\\', '\\', 'c'], .closeCmd], .ok ()) ∧
    ((([.openCmd "x.lua", .writeCmd ['a', '\\', 'n', 'b'],
        .writeCmd ['\\', '\\', 'c'], .closeCmd] : List UploadCmd).filterMap
          getWriteChunk).flatten = escapedContent ['a', '\n', 'b', '\\', 'c'] ∧
      unescape ((([.openCmd "x.lua", .writeCmd ['a', '\\', 'n', 'b'],
        .writeCmd ['\\', '\\', 'c'], .closeCmd] : List UploadCmd).filterMap
          getWriteChunk).flatten) = stripCR ['a', '\n', 'b', '\\', 'c'] ∧
      (∀ chunk, UploadCmd.writeCmd chunk ∈
          ([.openCmd "x.lua", .writeCmd ['a', '\\', 'n', 'b'],
            .writeCmd ['\\', '\\', 'c'], .closeCmd] : List UploadCmd) →
        trailingBackslashes chunk % 2 = 0)) :=
  ⟨by decide,
    uploadFileFromString_escape_chunk ['a', '\n', 'b', '\\', 'c'] 25 (fun _ => "1")
      "x.lua" _ (by decide)⟩

/-- C3: every non-empty inbound notification buffer is routed to exactly
one channel, determined by the leading byte: tag `1` hands the bytes
after the tag to the binary channel (waiter resolution and observer
delivery) and delivers nothing to the text channel; any other leading
byte delivers the entire buffer, byte 0 included (as the input of the
UTF-8 decode), to the text channel and nothing to the binary channel. -/
theorem notificationHandler_routing (st : NotifState) (env : NotifEnv)
    (b : Nat) (rest : List Nat) :
    (b = 1 →
      (notificationHandler st env (some (b :: rest))).resolvedPrint = none ∧
      (∀ r, (notificationHandler st env (some (b :: rest))).observerDelivery ≠
        some (.toPrint r)) ∧
      (env.onDataResponse.isSome = true →
        (notificationHandler st env (some (b :: rest))).observerDelivery =
          some (.toData rest)) ∧
      (st.awaitingDataResponse = true → st.dataResolve = true →
        (notificationHandler st env (some (b :: rest))).resolvedData = some rest)) ∧
    (b ≠ 1 →
      (notificationHandler st env (some (b :: rest))).resolvedData = none ∧
      (∀ r, (notificationHandler st env (some (b :: rest))).observerDelivery ≠
        some (.toData r)) ∧
      (env.onPrintResponse.isSome = true →
        (notificationHandler st env (some (b :: rest))).observerDelivery =
          some (.toPrint (b :: rest))) ∧
      (st.awaitingPrintResponse = true → st.printResolve = true →
        (notificationHandler st env (some (b :: rest))).resolvedPrint =
          some (b :: rest))) := by
  constructor
  · intro hb
    subst hb
    refine ⟨?_, ?_, ?_, ?_⟩
    · cases henv : env.onDataResponse <;> simp [notificationHandler, henv]
    · intro r
      cases henv : env.onDataResponse <;> simp [notificationHandler, henv]
    · intro hsome
      cases henv : env.onDataResponse with
      | none => rw [henv] at hsome; simp at hsome
      | some cb => simp [notificationHandler, henv]
    · intro h1 h2
      cases henv : env.onDataResponse <;>
        simp [notificationHandler, henv, h1, h2]
  · intro hb
    refine ⟨?_, ?_, ?_, ?_⟩
    · cases henv : env.onPrintResponse <;> simp [notificationHandler, henv, hb]
    · intro r
      cases henv : env.onPrintResponse <;> simp [notificationHandler, henv, hb]
    · intro hsome
      cases henv : env.onPrintResponse with
      | none => rw [henv] at hsome; simp at hsome
      | some cb => simp [notificationHandler, henv, hb]
    · intro h1 h2
      cases henv : env.onPrintResponse <;>
        simp [notificationHandler, henv, hb, h1, h2]

/-- Witness for C3 on a data-tagged and a text-tagged buffer. -/
theorem notificationHandler_routing_witness :
    (notificationHandler ⟨true, true, true, true⟩
      ⟨some .returnsVoid, some .returnsVoid⟩ (some [1, 5, 6])).observerDelivery =
        some (.toData [5, 6]) ∧
    (notificationHandler ⟨true, true, true, true⟩
      ⟨some .returnsVoid, some .returnsVoid⟩ (some [1, 5, 6])).resolvedData =
        some [5, 6] ∧
    (notificationHandler ⟨true, true, true, true⟩
      ⟨some .returnsVoid, some .returnsVoid⟩ (some [2, 5])).observerDelivery =
        some (.toPrint [2, 5]) ∧
    (notificationHandler ⟨true, true, true, true⟩
      ⟨some .returnsVoid, some .returnsVoid⟩ (some [2, 5])).resolvedPrint =
        some [2, 5] :=
  ⟨((notificationHandler_routing _ _ 1 [5, 6]).1 rfl).2.2.1 rfl,
   ((notificationHandler_routing _ _ 1 [5, 6]).1 rfl).2.2.2 rfl rfl,
   ((notificationHandler_routing _ _ 2 [5]).2 (by decide)).2.2.1 rfl,
   ((notificationHandler_routing _ _ 2 [5]).2 (by decide)).2.2.2 rfl rfl⟩

/-- C6 counterexample: on a zero-length (but non-null) notification value
the handler does not drop the message without raising an error —
`value.getUint8(0)` throws a `RangeError` that escapes the handler. -/
theorem notificationHandler_empty_throws_cex :
    (notificationHandler ⟨false, false, false, false⟩ ⟨none, none⟩ (some [])).thrown =
      some rangeError ∧
    (notificationHandler ⟨false, false, false, false⟩ ⟨none, none⟩
      (some [])).observerDelivery = none :=
  ⟨rfl, rfl⟩

/-- C6 (amended): a null/undefined notification value is dropped silently
(`if (!value) return`); a zero-length buffer is not dropped silently:
nothing is delivered to or resolved on either channel and the waiter
state is unchanged, but the `RangeError` thrown by `value.getUint8(0)`
escapes the handler, so the classification is not total on zero-length
input. -/
theorem notificationHandler_empty_behavior (st : NotifState) (env : NotifEnv) :
    notificationHandler st env none = ⟨st, none, none, none, none, none⟩ ∧
    notificationHandler st env (some []) = ⟨st, none, none, none, some rangeError, none⟩ :=
  ⟨rfl, rfl⟩

/-- C7 counterexample: a registered data observer that throws synchronously
when invoked has its exception escape the notification handler — the call
is not wrapped in `try`/`catch`; only a returned promise gets a `.catch`
— refuting "caught and reported rather than propagated". -/
theorem notificationHandler_observer_throw_cex :
    (notificationHandler ⟨false, false, false, false⟩
      ⟨some (.throwsSync observerError), none⟩ (some [1, 9])).thrown =
      some observerError :=
  rfl

/-- C7 (amended): asynchronous observer failures — a returned promise that
rejects — are caught and logged via `result.catch(console.error)` and do
not escape the handler, on both channels; a synchronous throw from an
observer callback escapes the notification handler, on both channels. -/
theorem notificationHandler_observer_failures (st : NotifState) (e : JsError)
    (b : Nat) (rest : List Nat) (hb : b ≠ 1) :
    (notificationHandler st ⟨some (.promiseRejects e), none⟩ (some (1 :: rest))).thrown =
      none ∧
    (notificationHandler st ⟨some (.promiseRejects e), none⟩ (some (1 :: rest))).logged =
      some e ∧
    (notificationHandler st ⟨none, some (.promiseRejects e)⟩ (some (b :: rest))).thrown =
      none ∧
    (notificationHandler st ⟨none, some (.promiseRejects e)⟩ (some (b :: rest))).logged =
      some e ∧
    (notificationHandler st ⟨some (.throwsSync e), none⟩ (some (1 :: rest))).thrown =
      some e ∧
    (notificationHandler st ⟨none, some (.throwsSync e)⟩ (some (b :: rest))).thrown =
      some e := by
  refine ⟨?_, ?_, ?_, ?_, ?_, ?_⟩ <;> simp [notificationHandler, invokeCb, hb]

/-- Witness for C7 (amended) at tag byte 2 and a concrete error. -/
theorem notificationHandler_observer_failures_witness :
    (notificationHandler ⟨false, false, false, false⟩
      ⟨some (.promiseRejects observerError), none⟩ (some [1, 9])).logged =
      some observerError ∧
    (notificationHandler ⟨false, false, false, false⟩
      ⟨none, some (.throwsSync observerError)⟩ (some [2, 9])).thrown =
      some observerError :=
  ⟨(notificationHandler_observer_failures ⟨false, false, false, false⟩ observerError
      2 [9] (by decide)).2.1,
   (notificationHandler_observer_failures ⟨false, false, false, false⟩ observerError
      2 [9] (by decide)).2.2.2.2.2⟩

/-- C5 counterexample: with both waiters pending, the disconnect handling
path (`handleDisconnect`) leaves every waiter field exactly as it was:
the pending promises are neither resolved nor failed by it.  (Both
settle paths in the source clear the awaiting flag, and the reject path
also clears the resolver, so an unchanged pending state means no
settlement occurred on the disconnect path.) -/
theorem handleDisconnect_pending_waiters_cex :
    (handleDisconnect pendingWaitersState).1.awaitingPrintResponse = true ∧
    (handleDisconnect pendingWaitersState).1.printResolve = true ∧
    (handleDisconnect pendingWaitersState).1.awaitingDataResponse = true ∧
    (handleDisconnect pendingWaitersState).1.dataResolve = true :=
  ⟨rfl, rfl, rfl, rfl⟩

/-- C5 (amended): on disconnect (requested or external) `handleDisconnect`
clears the four connection handles and invokes the registered disconnect
callback, but does not resolve, fail or clear either pending waiter; a
pending text waiter is failed only later, by its own timeout firing,
which rejects it with the Timeout error and clears the slot. -/
theorem handleDisconnect_behavior (s : FrameState) :
    handleDisconnect s =
      ({ s with device := false, server := false,
                txCharacteristic := false, rxCharacteristic := false },
       s.hasOnDisconnectHandler) ∧
    (handleDisconnect s).1.awaitingPrintResponse = s.awaitingPrintResponse ∧
    (handleDisconnect s).1.printResolve = s.printResolve ∧
    (handleDisconnect s).1.awaitingDataResponse = s.awaitingDataResponse ∧
    (handleDisconnect s).1.dataResolve = s.dataResolve ∧
    printStep sendLuaAwaitPrintIssue .timeoutFire =
      (⟨false, false⟩, some .rejectedTimeout) :=
  ⟨rfl, rfl, rfl, rfl, rfl, rfl⟩

theorem printRun_not_awaiting (es : List PrintEvent) (st : PrintWaiterState)
    (h : st.awaitingPrintResponse = false) :
    printRun st es = (st, []) := by
  induction es with
  | nil => rfl
  | cons e es ih =>
    cases e with
    | message raw => simp [printRun, printStep, h, ih]
    | timeoutFire => simp [printRun, printStep, h, ih]

/-- C8: from the waiter state issued by `sendLua` with `awaitPrint`, the
waiter settles exactly once: processing any event sequence yields at most
one user-visible completion, and exactly one as soon as the sequence
contains the timeout firing; if the timeout fires before any print
message (no response within the timeout), the promise is rejected with
the Timeout error and both waiter fields are cleared, leaving the text
channel free for the next awaited call; if a message arrives first it
resolves the waiter and any later timeout callback is a no-op. -/
theorem sendLua_awaitPrint_exactly_once :
    (∀ raw rest, printRun sendLuaAwaitPrintIssue (.message raw :: rest) =
      (⟨false, true⟩, [.resolved raw])) ∧
    (∀ rest, printRun sendLuaAwaitPrintIssue (.timeoutFire :: rest) =
      (⟨false, false⟩, [.rejectedTimeout])) ∧
    (∀ es, (printRun sendLuaAwaitPrintIssue es).2.length ≤ 1) ∧
    (∀ es, PrintEvent.timeoutFire ∈ es →
      (printRun sendLuaAwaitPrintIssue es).2.length = 1) := by
  have hmsg : ∀ raw rest, printRun sendLuaAwaitPrintIssue (.message raw :: rest) =
      (⟨false, true⟩, [.resolved raw]) := by
    intro raw rest
    simp [printRun, printStep, sendLuaAwaitPrintIssue,
      printRun_not_awaiting rest ⟨false, true⟩ rfl]
  have htime : ∀ rest, printRun sendLuaAwaitPrintIssue (.timeoutFire :: rest) =
      (⟨false, false⟩, [.rejectedTimeout]) := by
    intro rest
    simp [printRun, printStep, sendLuaAwaitPrintIssue,
      printRun_not_awaiting rest ⟨false, false⟩ rfl]
  refine ⟨hmsg, htime, ?_, ?_⟩
  · intro es
    cases es with
    | nil => simp [printRun]
    | cons e rest =>
      cases e with
      | message raw => rw [hmsg]; simp
      | timeoutFire => rw [htime]; simp
  · intro es hmem
    cases es with
    | nil => simp at hmem
    | cons e rest =>
      cases e with
      | message raw => rw [hmsg]; rfl
      | timeoutFire => rw [htime]; rfl

/-- Witness for C8: the timeout fires first, a late message follows. -/
theorem sendLua_awaitPrint_exactly_once_witness :
    printRun sendLuaAwaitPrintIssue [.timeoutFire, .message [65]] =
      (⟨false, false⟩, [.rejectedTimeout]) ∧
    (printRun sendLuaAwaitPrintIssue [.timeoutFire, .message [65]]).2.length = 1 :=
  ⟨sendLua_awaitPrint_exactly_once.2.1 [.message [65]],
   sendLua_awaitPrint_exactly_once.2.2.2 [.timeoutFire, .message [65]] (by decide)⟩

/-- C10: calling `disconnect()` when no device is connected (or the GATT
link is not active) still runs the full disconnect cleanup synchronously:
it clears the device, server and both characteristic handles and invokes
the registered disconnect handler if one is set, without requesting a
GATT disconnect. -/
theorem disconnect_when_not_connected (s : FrameState) (h : isConnected s = false) :
    disconnect s =
      ({ s with device := false, server := false,
                txCharacteristic := false, rxCharacteristic := false },
       s.hasOnDisconnectHandler, false) := by
  have hc : (s.device && s.gattConnected) = false := h
  simp [disconnect, handleDisconnect, hc]

/-- Witness for C10 at a state holding a device handle but no live GATT
link, with a registered disconnect handler and pending waiters. -/
theorem disconnect_when_not_connected_witness :
    isConnected notConnectedState = false ∧
    disconnect notConnectedState =
      ({ notConnectedState with
          device := false, server := false,
          txCharacteristic := false, rxCharacteristic := false },
       notConnectedState.hasOnDisconnectHandler, false) :=
  ⟨by decide, disconnect_when_not_connected notConnectedState (by decide)⟩

/-- C4 counterexample: in the claim's scenario — three attempts would be
allowed, the establishment outcomes of attempts 0 and 1 raise a
retryable link-layer error, attempt 2 would succeed — the canonical
`connect` does not retry: it runs the establishment steps exactly once,
performs no retry delay, and surfaces the retryable error, instead of
succeeding after exactly 2 retry delays as the claim requires. -/
theorem connect_retry_scenario_cex :
    isRetryableError retryableLinkError = true ∧
    runConnectAttempt (retryScenarioEnv.attempts 0) = .error retryableLinkError ∧
    runConnectAttempt (retryScenarioEnv.attempts 1) = .error retryableLinkError ∧
    runConnectAttempt (retryScenarioEnv.attempts 2) = .ok 247 ∧
    connect retryScenarioEnv = (.error retryableLinkError, [.attemptConnection 0]) :=
  ⟨by decide, by decide, by decide, by decide, by decide⟩

/-- C4 (amended): `connect` contains no retry loop: for every environment
it performs at most one establishment attempt (attempt 0), never performs
a retry delay, and surfaces the first establishment error — including one
whose message matches the retryable link-layer messages — immediately
after cleanup.  (The bounded retry loop with default 5 attempts and
1000 ms delay described by the spec exists only in the prior-revision
class embedded in `example/decompression.js`, whose retryable-error
classifier `isRetryableError` embeds.) -/
theorem connect_single_attempt (env : ConnectEnv) :
    ((connect env).2 = [] ∨ (connect env).2 = [ConnectAction.attemptConnection 0]) ∧
    (∀ ms, ConnectAction.retryDelay ms ∉ (connect env).2) ∧
    (∀ e, env.bluetoothAvailable = true →
      (∃ d, env.requestDevice = .ok d) →
      runConnectAttempt (env.attempts 0) = .error e →
      (connect env).1 = .error e) := by
  refine ⟨?_, ?_, ?_⟩
  · cases hb : env.bluetoothAvailable with
    | false => left; simp [connect, hb]
    | true =>
      cases hreq : env.requestDevice with
      | error e => left; simp [connect, hb, hreq]
      | ok d =>
        cases hatt : runConnectAttempt (env.attempts 0) with
        | ok mtu => right; simp [connect, hb, hreq, hatt]
        | error e => right; simp [connect, hb, hreq, hatt]
  · intro ms
    cases hb : env.bluetoothAvailable with
    | false => simp [connect, hb]
    | true =>
      cases hreq : env.requestDevice with
      | error e => simp [connect, hb, hreq]
      | ok d =>
        cases hatt : runConnectAttempt (env.attempts 0) with
        | ok mtu => simp [connect, hb, hreq, hatt]
        | error e => simp [connect, hb, hreq, hatt]
  · intro e hb hex hatt
    obtain ⟨d, hd⟩ := hex
    simp [connect, hb, hd, hatt]

/-- Witness for C4 (amended) on the retry-scenario environment. -/
theorem connect_single_attempt_witness :
    ((connect retryScenarioEnv).2 = [] ∨
      (connect retryScenarioEnv).2 = [ConnectAction.attemptConnection 0]) ∧
    ConnectAction.retryDelay 1000 ∉ (connect retryScenarioEnv).2 ∧
    (connect retryScenarioEnv).1 = .error retryableLinkError :=
  ⟨(connect_single_attempt retryScenarioEnv).1,
   (connect_single_attempt retryScenarioEnv).2.1 1000,
   (connect_single_attempt retryScenarioEnv).2.2 retryableLinkError rfl
     ⟨"frame-device-id", rfl⟩ (by decide)⟩

theorem uploadLoopF_single (m : Nat) (writeResp : Nat → String) (r : List Char)
    (hne : r ≠ []) (hlen : r.length ≤ m) (hlast : r.getLast? ≠ some '\\')
    (hresp : writeResp 0 = "1") :
    uploadLoopF m writeResp r.length 0 r = ([.writeCmd r], .ok ()) := by
  cases r with
  | nil => exact absurd rfl hne
  | cons x xs =>
    have htake : (x :: xs).take (xs.length + 1) = x :: xs := by
      simp
    have hadj : adjustChunkSize (x :: xs) (xs.length + 1) = xs.length + 1 := by
      simp only [adjustChunkSize, htake]
      rw [if_neg hlast]
    have hmin : min m (xs.length + 1) = xs.length + 1 := by
      simp only [List.length_cons] at hlen
      omega
    have hdrop : (x :: xs).drop (xs.length + 1) = [] := by
      simp
    have hw : ¬(writeResp 0 ≠ "1") := fun hh => hh hresp
    simp only [uploadLoopF, List.length_cons, hmin, hadj, htake, hdrop]
    rw [if_neg (Nat.succ_ne_zero xs.length), if_neg hw]

/-- C9: `uploadFileFromString("hello\nworld", "x.lua")` — with the device
acknowledging each command with the success sentinel "1" and a negotiated
payload size of at least 32 (so the escaped content fits one write
command) — issues exactly three awaited remote commands in order: the
open command (checked against "1"), exactly one write command carrying
the escaped content `hello\\nworld`, and the close command; each
`sendLua(..., {awaitPrint: true})` is awaited before the next command is
issued, so the trace lists them in issue order.  Moreover, whenever the
upload fails with a write failure or a chunk-boundary failure, the close
command is the last command issued, so the remote file handle is closed
before the error is surfaced to the caller. -/
theorem uploadFileFromString_hello_world :
    (∀ maxPayload, 32 ≤ maxPayload →
      uploadFileFromString maxPayload "1" (fun _ => "1") "hello\nworld".toList "x.lua" =
        ([.openCmd "x.lua", .writeCmd "hello\\nworld".toList, .closeCmd], .ok ())) ∧
    (∀ maxPayload openResp writeResp content frameFilePath cmds e,
      uploadFileFromString maxPayload openResp writeResp content frameFilePath =
        (cmds, .error e) →
      e = .writeFailed ∨ e = .chunkingFailed →
      cmds.getLast? = some .closeCmd) := by
  constructor
  · intro mp hmp
    have hesc : escapedContent "hello\nworld".toList = "hello\\nworld".toList := by decide
    have hlen20 : ("f:write(\"\");print(1)".length : Nat) = 20 := by decide
    have hgm : getMaxPayload mp true = (mp : Int) := by simp [getMaxPayload]
    have hms : ¬((getMaxPayload mp true -
        ("f:write(\"\");print(1)".length : Nat) : Int) ≤ 0) := by
      rw [hgm, hlen20]
      omega
    have hm : ((getMaxPayload mp true -
        ("f:write(\"\");print(1)".length : Nat) : Int)).toNat = mp - 20 := by
      rw [hgm, hlen20]
      omega
    have hrun := uploadLoopF_single
      ((getMaxPayload mp true - ("f:write(\"\");print(1)".length : Nat) : Int)).toNat
      (fun _ => "1") "hello\\nworld".toList (by decide)
      (by rw [hm, show ("hello\\nworld".toList).length = 12 from by decide]; omega)
      (by decide) rfl
    simp only [uploadFileFromString, hesc]
    rw [if_neg (fun hh => hh rfl), if_neg hms, hrun]
    rfl
  · intro mp openResp writeResp content path cmds e h he
    simp only [uploadFileFromString] at h
    by_cases ho : openResp ≠ "1"
    · rw [if_pos ho, Prod.mk.injEq] at h
      obtain ⟨-, herr⟩ := h
      simp only [Except.error.injEq] at herr
      subst herr
      rcases he with he | he <;> simp at he
    · rw [if_neg ho] at h
      by_cases hms : (getMaxPayload mp true -
          ("f:write(\"\");print(1)".length : Nat) : Int) ≤ 0
      · rw [if_pos hms, Prod.mk.injEq] at h
        obtain ⟨-, herr⟩ := h
        simp only [Except.error.injEq] at herr
        subst herr
        rcases he with he | he <;> simp at he
      · rw [if_neg hms] at h
        cases hrun : (uploadLoopF (getMaxPayload mp true -
            ("f:write(\"\");print(1)".length : Nat) : Int).toNat writeResp
            (escapedContent content).length 0 (escapedContent content)).2 with
        | ok u =>
          rw [hrun, Prod.mk.injEq] at h
          obtain ⟨-, herr⟩ := h
          simp at herr
        | error e2 =>
          rw [hrun, Prod.mk.injEq] at h
          obtain ⟨hc, -⟩ := h
          subst hc
          have hclose := uploadLoopF_error_closes
            (getMaxPayload mp true - ("f:write(\"\");print(1)".length : Nat) : Int).toNat
            writeResp (escapedContent content).length 0 (escapedContent content)
            le_rfl e2 hrun
          cases hrl : (uploadLoopF (getMaxPayload mp true -
              ("f:write(\"\");print(1)".length : Nat) : Int).toNat writeResp
              (escapedContent content).length 0 (escapedContent content)).1 with
          | nil => rw [hrl] at hclose; simp at hclose
          | cons y ys =>
            rw [hrl] at hclose
            rw [List.getLast?_cons_cons]
            exact hclose

/-- Witness for C9 at `maxPayload = 247` (success scenario) and
`maxPayload = 32` with a failing write response (failure scenario). -/
theorem uploadFileFromString_hello_world_witness :
    uploadFileFromString 247 "1" (fun _ => "1") "hello\nworld".toList "x.lua" =
      ([.openCmd "x.lua", .writeCmd "hello\\nworld".toList, .closeCmd], .ok ()) ∧
    ([UploadCmd.openCmd "x.lua", UploadCmd.writeCmd "hello\\nworld".toList,
      UploadCmd.closeCmd] : List UploadCmd).getLast? = some .closeCmd :=
  ⟨uploadFileFromString_hello_world.1 247 (by decide),
   uploadFileFromString_hello_world.2 32 "1" (fun _ => "0") "hello\nworld".toList
     "x.lua" _ .writeFailed (by decide) (Or.inl rfl)⟩

end FrameBle
